import Mathlib

/-!
Shallow embedding of the thread abstraction layer of the fbchat repository
(file fbchat/_thread.py), together with proofs of the specification claims.

Python dictionaries used as request payloads are modelled as association
lists that keep insertion order; assignment to an existing key replaces the
value in place, assignment to a fresh key appends, exactly like a Python
dict. Python values appearing in payloads are modelled by the inductive
type PyVal. Fallible operations return an Except value; the transport
(session) is modelled by passing the relevant server response as an
explicit argument and recording every posted payload in a request list.
-/

/-- A Python value as it appears in a request payload or a response. -/
inductive PyVal where
  | str (s : String)
  | int (n : Int)
  | bool (b : Bool)
  | pynone
  deriving DecidableEq

/-- Request payloads: insertion-ordered key/value lists, as Python dicts. -/
abbrev Payload : Type := List (String × PyVal)

/-- Python dict assignment d[k] = v: replace in place if the key is
present, else append at the end (insertion order). -/
def setItem {α : Type} (d : List (String × α)) (k : String) (v : α) :
    List (String × α) :=
  if d.any (fun p => p.1 == k) then
    d.map (fun p => if p.1 == k then (k, v) else p)
  else
    d ++ [(k, v)]

/-- Python dict lookup d.get(k): the value at the key, if present. -/
def getItem? {α : Type} (d : List (String × α)) (k : String) : Option α :=
  (d.find? (fun p => p.1 == k)).map Prod.snd

/-- Truthiness of an optional Python string: None and the empty string are
falsy. -/
def truthyOptStr : Option String → Bool
  | none => false
  | some s => !s.isEmpty

/-- Python str formatting of an optional string: None prints as "None". -/
def pyFormatOpt : Option String → String
  | none => "None"
  | some s => s

/-- An optional string as a payload value (None becomes Python None). -/
def pyOpt : Option String → PyVal
  | none => PyVal.pynone
  | some s => PyVal.str s

/-- Python objects that can be passed as the id argument of the Thread
constructor (the attrs converter accepts any object). -/
inductive PyObj where
  | str (s : String)
  | int (n : Int)
  | pynone
  deriving DecidableEq

/-- Python str() conversion, as used by the attrs converter of Thread.id. -/
def pyStr : PyObj → String
  | PyObj.str s => s
  | PyObj.int n => toString n
  | PyObj.pynone => "None"

/-- Exceptions raised by the operations of the module. -/
inductive PyErr where
  | valueError (msg : String)
  | notImplementedError (msg : String)
  | fbchatFacebookError (msg : String) (fb_error_message : Option String)
  | fbchatException (msg : String)
  deriving DecidableEq

/-- The session transport (collaborator module fbchat._session, not part of
this excerpt); threads only store it and forward requests through it, so it
is modelled as an opaque token carrying the user id. -/
structure Session where
  user_id : String
  deriving DecidableEq

/-- fbchat._thread.Thread: a thread where the actual type is unknown.
Fields as in the source: the owning session and the thread id. -/
structure Thread where
  session : Session
  id : String
  deriving DecidableEq

/-- The attrs-generated Thread constructor: id = attr.ib(converter=str)
applies Python str() to the id argument; no further validation happens. -/
def Thread.make (session : Session) (id : PyObj) : Thread :=
  ⟨session, pyStr id⟩

def DEFAULT_COLOR : String := "#0084ff"

def SETABLE_COLORS : List String :=
  [ DEFAULT_COLOR, "#44bec7", "#ffc300", "#fa3c4c", "#d696bb", "#6699cc",
    "#13cf13", "#ff7e29", "#e68585", "#7646ff", "#20cef5", "#67b868",
    "#d4a88c", "#ff5ca1", "#a695c7", "#ff7ca8", "#1adb5b", "#f01d6a",
    "#ff9c19", "#0edcde" ]

/-- The outcome of running one operation: the thread object the method
leaves behind (the receiver, since no method assigns to self), every
payload posted through the session, and the returned value or the raised
exception. -/
structure OpResult (α : Type) where
  thread : Thread
  requests : List Payload
  result : Except PyErr α

/-- The message of the NotImplementedError raised by Thread._to_send_data
(two adjacent string literals in the source). -/
def rawThreadMsg : String :=
  "The method you called is not supported on raw Thread objects." ++
    " Please use an appropriate User/Group/Page object instead!"

/-- Thread._to_send_data: raw Thread objects do not support the send
operations. -/
def Thread._to_send_data (_t : Thread) : Except PyErr Payload :=
  Except.error (PyErr.notImplementedError rawThreadMsg)

/-- Message of the ValueError raised by set_color: Python formats the
SETABLE_COLORS tuple into the message. -/
def setColorErrMsg : String :=
  "Invalid color! Please use one of: ('" ++
    String.intercalate "', '" SETABLE_COLORS ++ "')"

/-- ThreadABC.set_color: validate the color against SETABLE_COLORS, send
the empty string instead of the default color, post one payload. -/
def set_color (t : Thread) (color : String) : OpResult Unit :=
  if color ∉ SETABLE_COLORS then
    ⟨t, [], Except.error (PyErr.valueError setColorErrMsg)⟩
  else
    let color2 := if color = DEFAULT_COLOR then "" else color
    let data : Payload :=
      [("color_choice", PyVal.str color2), ("thread_or_other_fbid", PyVal.str t.id)]
    ⟨t, [data], Except.ok ()⟩

/-- Python timedelta, modelled with integral total seconds (no claim
depends on sub-second precision). -/
structure Timedelta where
  total_seconds : Int
  deriving DecidableEq

/-- Modelled from the spec: _util.timedelta_to_seconds is part of the
collaborator module fbchat._util, which is not in this excerpt; per the
spec it converts a timedelta to its total seconds. -/
def timedelta_to_seconds (d : Timedelta) : Int :=
  d.total_seconds

/-- ThreadABC.mute: "-1" mutes forever, otherwise the total seconds of the
duration is sent as a string. -/
def mute (t : Thread) (duration : Option Timedelta) : OpResult Unit :=
  let setting :=
    match duration with
    | none => "-1"
    | some d => toString (timedelta_to_seconds d)
  let data : Payload :=
    [("mute_settings", PyVal.str setting), ("thread_fbid", PyVal.str t.id)]
  ⟨t, [data], Except.ok ()⟩

/-- ThreadABC.unmute: mute with a zero timedelta. -/
def unmute (t : Thread) : OpResult Unit :=
  mute t (some ⟨0⟩)

/-- One snippet of a message-search response. -/
structure SearchSnippet where
  message_id : String
  deriving DecidableEq

/-- The per-thread entry of a message-search response. In the source the
entry is tested for truthiness before its snippets are read, so a missing
or falsy entry is modelled as none. -/
structure SearchEntry where
  snippets : List SearchSnippet
  deriving DecidableEq

/-- ThreadABC.search_messages: post query, offset and limit, then yield the
message id of every snippet below the thread id of the response. The
search result for the query is modelled as a map from thread id to entry. -/
def search_messages (t : Thread) (query : String) (offset limit : Int)
    (result : String → Option SearchEntry) : OpResult (List String) :=
  let data : Payload :=
    [ ("query", PyVal.str query),
      ("snippetOffset", PyVal.int offset),
      ("snippetLimit", PyVal.int limit),
      ("identifier", PyVal.str "thread_fbid"),
      ("thread_fbid", PyVal.str t.id) ]
  let snippets :=
    match result t.id with
    | some entry => entry.snippets
    | none => []
  ⟨t, [data], Except.ok (snippets.map (fun s => s.message_id))⟩

/-- Python str.lower(), character by character (the strings involved here
are ASCII). -/
def pyLower (s : String) : String :=
  ⟨s.data.map Char.toLower⟩

/-- Python str.upper(), character by character (the strings involved here
are ASCII). -/
def pyUpper (s : String) : String :=
  ⟨s.data.map Char.toUpper⟩

/-- ThreadABC._parse_color: None and the empty string give the default
color, otherwise the alpha value (first two characters) is stripped and
the rest lowercased behind a "#". -/
def _parse_color (inp : Option String) : String :=
  match inp with
  | none => DEFAULT_COLOR
  | some s => if s.isEmpty then DEFAULT_COLOR else "#" ++ pyLower (s.drop 2)

/-- The key option_text_array[i] of the create_poll payload. -/
def optKey (i : Nat) : String :=
  "option_text_array[" ++ Nat.repr i ++ "]"

/-- The key option_is_selected_array[i] of the create_poll payload. -/
def selKey (i : Nat) : String :=
  "option_is_selected_array[" ++ Nat.repr i ++ "]"

/-- The loop body of create_poll for one enumerated option: store the
option text under option_text_array[i] and the selection flag under
option_is_selected_array[i]. -/
def pollStep (d : List (String × PyVal)) (iv : Nat × (String × Bool)) :
    List (String × PyVal) :=
  setItem (setItem d (optKey iv.1) (PyVal.str iv.2.1))
    (selKey iv.1) (PyVal.str (if iv.2.2 then "1" else "0"))

/-- Response of the create_poll endpoint: a status plus optional error
fields, each read with dict.get in the source. -/
structure PollResponse where
  status : Option String
  errorTitle : Option String
  errorMessage : Option String
  deriving DecidableEq

/-- ThreadABC.create_poll: an ordered dict starting with question_text and
target_id, followed per enumerated option by its text and its selection
flag; the payload is posted once and FBchatFacebookError is raised when the
status of the response is not "success". Options are a Python mapping; its
iteration order is modelled by the list order. -/
def create_poll (t : Thread) (question : String)
    (options : List (String × Bool)) (resp : PollResponse) : OpResult Unit :=
  let data : Payload :=
    [("question_text", PyVal.str question), ("target_id", PyVal.str t.id)]
  let data := options.enum.foldl pollStep data
  if resp.status ≠ some "success" then
    ⟨t, [data],
      Except.error (PyErr.fbchatFacebookError
        ("Failed creating poll: " ++ pyFormatOpt resp.errorTitle)
        resp.errorMessage)⟩
  else
    ⟨t, [data], Except.ok ()⟩

/-- The option part of the create_poll payload, in closed form. -/
def poll_options_payload (options : List (String × Bool)) : Payload :=
  options.enum.flatMap
    (fun iv =>
      [(optKey iv.1, PyVal.str iv.2.1),
       (selKey iv.1, PyVal.str (if iv.2.2 then "1" else "0"))])

/-- A node of one media edge of the shared-media response; __typename and
legacy_attachment_id are read with dict.get in the source. -/
structure MediaNode where
  typename : Option String
  legacy_attachment_id : Option String
  deriving DecidableEq

/-- One edge of the shared-media response. -/
structure MediaEdge where
  node : MediaNode
  deriving DecidableEq

/-- One page of the shared-media response: the edge list plus page_info;
has_next_page is tested for truthiness, end_cursor is read with dict.get. -/
structure MediaPage where
  edges : List MediaEdge
  has_next_page : Bool
  end_cursor : Option String
  deriving DecidableEq

/-- The attachments yielded by fetch_images. ImageAttachment._from_list and
VideoAttachment._from_list live in the collaborator module fbchat._file
(not part of this excerpt), so the image and video constructors keep the
whole edge they were built from. -/
inductive MediaAttachment where
  | image (edge : MediaEdge)
  | video (edge : MediaEdge)
  | attachment (id : Option String)
  deriving DecidableEq

/-- The body of the fetch_images loop for one edge: dispatch on __typename. -/
def parseMediaEdge (i : MediaEdge) : MediaAttachment :=
  if i.node.typename = some "MessageImage" then
    MediaAttachment.image i
  else if i.node.typename = some "MessageVideo" then
    MediaAttachment.video i
  else
    MediaAttachment.attachment i.node.legacy_attachment_id

/-- The first request payload of fetch_images. -/
def imagesInitData (t : Thread) : Payload :=
  [("id", PyVal.str t.id), ("first", PyVal.int 48)]

/-- The loop of ThreadABC.fetch_images, operating on the current page p,
the mutable request dict data, and the list rest of pages the server will
return for the follow-up requests. Every edge of the current page is
yielded in order; when the page is exhausted and has_next_page is truthy, a
follow-up request with the end_cursor under the key "after" is issued
(recorded in the second component), otherwise the generator stops. The
result is none when the loop would request more pages than rest supplies. -/
def fetchImagesLoop : Payload → MediaPage → List MediaPage →
    Option (List MediaAttachment × List Payload)
  | _, p, [] =>
    if p.has_next_page then none
    else some (p.edges.map parseMediaEdge, [])
  | data, p, q :: rest =>
    if p.has_next_page then
      let data2 := setItem data "after" (pyOpt p.end_cursor)
      match fetchImagesLoop data2 q rest with
      | none => none
      | some ar => some (p.edges.map parseMediaEdge ++ ar.1, data2 :: ar.2)
    else
      some (p.edges.map parseMediaEdge, [])

/-- ThreadABC.fetch_images: issue the initial request, then run the loop.
pages is the sequence of server responses; none means the generator would
request beyond the supplied pages. The second component records every
posted payload, the initial one included. -/
def fetch_images (t : Thread) (pages : List MediaPage) :
    Option (List MediaAttachment × List Payload) :=
  match pages with
  | [] => none
  | p :: rest =>
    (fetchImagesLoop (imagesInitData t) p rest).map
      (fun ar => (ar.1, imagesInitData t :: ar.2))

/-- The pages of one fetch_images session, where every page but the last
announces a next page and the last one does not. -/
def lastPageChain : List MediaPage → Bool
  | [] => false
  | [p] => !p.has_next_page
  | p :: q :: rest => p.has_next_page && lastPageChain (q :: rest)

/-- A message as built by fetch_messages. MessageData._from_graphql lives
in the collaborator module fbchat._message (not part of this excerpt), so
it is modelled as keeping the thread it was given, the raw graphql node and
the read receipts. -/
structure MessageData where
  thread : Thread
  node : String
  read_receipts : List String
  deriving DecidableEq

/-- The message_thread part of the fetch_messages response. -/
structure MessageThreadResponse where
  read_receipt_nodes : List String
  message_nodes : List String
  deriving DecidableEq

/-- ThreadABC.fetch_messages: post the graphql params; raise
FBchatException when the response has no message_thread; otherwise build
the messages on a newly constructed thread with the same class, session and
id, and return them in reversed (oldest first) order. before is the
optional millisecond timestamp sent in the params. -/
def fetch_messages (t : Thread) (limit : Int) (before : Option Int)
    (resp : Option MessageThreadResponse) : OpResult (List MessageData) :=
  let params : Payload :=
    [ ("id", PyVal.str t.id),
      ("message_limit", PyVal.int limit),
      ("load_messages", PyVal.bool true),
      ("load_read_receipts", PyVal.bool true),
      ("before", match before with
        | some ms => PyVal.int ms
        | none => PyVal.pynone) ]
  match resp with
  | none =>
    ⟨t, [params],
      Except.error (PyErr.fbchatException ("Could not fetch thread " ++ t.id))⟩
  | some j =>
    let thread : Thread := ⟨t.session, t.id⟩
    let messages :=
      j.message_nodes.map (fun m => MessageData.mk thread m j.read_receipt_nodes)
    ⟨t, [params], Except.ok messages.reverse⟩

/-- ThreadABC.wave: needs the send data of the thread; on a raw Thread the
NotImplementedError of _to_send_data propagates before anything is posted.
resp is the (message id, thread id) pair returned by _do_send_request. -/
def wave (t : Thread) (first : Bool) (resp : String × String) : OpResult String :=
  match t._to_send_data with
  | Except.error e => ⟨t, [], Except.error e⟩
  | Except.ok data =>
    let data := setItem data "action_type" (PyVal.str "ma-type:user-generated-message")
    let data := setItem data "lightweight_action_attachment[lwa_state]"
      (PyVal.str (if first then "INITIATED" else "RECIPROCATED"))
    let data := setItem data "lightweight_action_attachment[lwa_type]"
      (PyVal.str "WAVE")
    ⟨t, [data], Except.ok resp.1⟩

/-- A mention (collaborator module fbchat._message, not part of this
excerpt): only its contribution to the send payload matters here. -/
structure Mention where
  send_data : Nat → Payload

/-- ThreadABC.send_text. text is optional to support send_files; files are
(file id, mimetype) pairs; mimetype_to_key lives in the collaborator module
fbchat._util and is passed explicitly. On a raw Thread the
NotImplementedError of _to_send_data propagates before anything is posted. -/
def send_text (t : Thread) (text : Option String) (mentions : List Mention)
    (files : List (String × String)) (reply_to_id : Option String)
    (mimetype_to_key : String → String) (resp : String) : OpResult String :=
  match t._to_send_data with
  | Except.error e => ⟨t, [], Except.error e⟩
  | Except.ok data =>
    let data := setItem data "action_type" (PyVal.str "ma-type:user-generated-message")
    let data :=
      match text with
      | some s => setItem data "body" (PyVal.str s)
      | none => data
    let data :=
      mentions.enum.foldl
        (fun d im => (im.2.send_data im.1).foldl (fun d kv => setItem d kv.1 kv.2) d)
        data
    let data := if !files.isEmpty then setItem data "has_attachment" (PyVal.bool true) else data
    let data :=
      files.enum.foldl
        (fun d ifm =>
          setItem d (mimetype_to_key ifm.2.2 ++ "s[" ++ Nat.repr ifm.1 ++ "]")
            (PyVal.str ifm.2.1))
        data
    let data :=
      match reply_to_id with
      | some r => if !r.isEmpty then setItem data "replied_to_message_id" (PyVal.str r) else data
      | none => data
    ⟨t, [data], Except.ok resp⟩

/-- The size of an emoji (collaborator module fbchat._message); only the
lowercased name of the enum member is used. -/
structure EmojiSize where
  name : String

/-- ThreadABC.send_emoji. -/
def send_emoji (t : Thread) (emoji : String) (size : EmojiSize)
    (resp : String) : OpResult String :=
  match t._to_send_data with
  | Except.error e => ⟨t, [], Except.error e⟩
  | Except.ok data =>
    let data := setItem data "action_type" (PyVal.str "ma-type:user-generated-message")
    let data := setItem data "body" (PyVal.str emoji)
    let data := setItem data "tags[0]"
      (PyVal.str ("hot_emoji_size:" ++ pyLower size.name))
    ⟨t, [data], Except.ok resp⟩

/-- ThreadABC.send_sticker. -/
def send_sticker (t : Thread) (sticker_id : String) (resp : String) :
    OpResult String :=
  match t._to_send_data with
  | Except.error e => ⟨t, [], Except.error e⟩
  | Except.ok data =>
    let data := setItem data "action_type" (PyVal.str "ma-type:user-generated-message")
    let data := setItem data "sticker_id" (PyVal.str sticker_id)
    ⟨t, [data], Except.ok resp⟩

/-- ThreadABC._send_location. The coordinates are Python floats, which no
claim inspects, so they are carried as opaque payload values. -/
def _send_location (t : Thread) (current : Bool) (latitude longitude : PyVal)
    (resp : String) : OpResult String :=
  match t._to_send_data with
  | Except.error e => ⟨t, [], Except.error e⟩
  | Except.ok data =>
    let data := setItem data "action_type" (PyVal.str "ma-type:user-generated-message")
    let data := setItem data "location_attachment[coordinates][latitude]" latitude
    let data := setItem data "location_attachment[coordinates][longitude]" longitude
    let data := setItem data "location_attachment[is_current_location]"
      (PyVal.bool current)
    ⟨t, [data], Except.ok resp⟩

/-- ThreadABC.send_location (current location); the message id is dropped. -/
def send_location (t : Thread) (latitude longitude : PyVal)
    (resp : String) : OpResult Unit :=
  let r := _send_location t true latitude longitude resp
  ⟨r.thread, r.requests, r.result.map (fun _ => ())⟩

/-- ThreadABC.send_pinned_location (pinned location); the message id is
dropped. -/
def send_pinned_location (t : Thread) (latitude longitude : PyVal)
    (resp : String) : OpResult Unit :=
  let r := _send_location t false latitude longitude resp
  ⟨r.thread, r.requests, r.result.map (fun _ => ())⟩

/-- ThreadABC.send_files: send_text with text None and no mentions. -/
def send_files (t : Thread) (files : List (String × String))
    (mimetype_to_key : String → String) (resp : String) : OpResult String :=
  send_text t none [] files none mimetype_to_key resp

/-- One entry of participant_customizations. The participant id is indexed
with brackets in the group branch of the source, so it is modelled as
always present; the nickname is read with dict.get. -/
structure ParticipantCustomization where
  participant_id : String
  nickname : Option String
  deriving DecidableEq

/-- The customization_info part of a thread response; every field is read
with dict.get, participant_customizations defaulting to the empty list. -/
structure CustomizationInfo where
  emoji : Option String
  outgoing_bubble_color : Option String
  participant_customizations : List ParticipantCustomization
  deriving DecidableEq

/-- The thread_key part of a thread response; both fields are read with
dict.get. -/
structure ThreadKey where
  thread_fbid : Option String
  other_user_id : Option String
  deriving DecidableEq

/-- The data argument of _parse_customization_info. customization_info is
none when the key is missing or its value falsy; the other fields are read
with dict.get (thread_key defaulting to an empty dict), is_group_thread
standing for the truthiness of that entry. -/
structure CustomizationData where
  customization_info : Option CustomizationInfo
  thread_type : Option String
  is_group_thread : Bool
  thread_key : Option ThreadKey
  id : Option String
  deriving DecidableEq

/-- data.get("thread_key", {}) of the source. -/
def tkGet (d : CustomizationData) : ThreadKey :=
  match d.thread_key with
  | some tk => tk
  | none => ⟨none, none⟩

/-- The group test of _parse_customization_info: thread_type "GROUP", a
truthy is_group_thread, or a thread_key with a truthy thread_fbid. -/
def isGroupData (d : CustomizationData) : Bool :=
  (d.thread_type == some "GROUP") || d.is_group_thread ||
    truthyOptStr (tkGet d).thread_fbid

/-- The nicknames dict of the group branch: participant id to nickname, in
iteration order, later entries overwriting earlier ones. -/
def nicknameDict (pc : List ParticipantCustomization) :
    List (String × Option String) :=
  pc.foldl (fun m k => setItem m k.participant_id k.nickname) []

/-- The other user of the non-group branch:
data.get("thread_key", {}).get("other_user_id") or data.get("id"). -/
def otherUserId (d : CustomizationData) : Option String :=
  if truthyOptStr (tkGet d).other_user_id then (tkGet d).other_user_id
  else d.id

/-- The result of _parse_customization_info, a dict with keys emoji and
color always present, and nicknames / nickname / own_nickname present only
when set (an outer some marks a present key). -/
structure CustomizationResult where
  emoji : Option String
  color : String
  nicknames : Option (List (String × Option String))
  nickname : Option (Option String)
  own_nickname : Option (Option String)
  deriving DecidableEq

/-- The non-group branch processes pc[0] and, when present, pc[1]: each
sets nickname when its participant id equals the other user id, else
own_nickname. -/
def applyPC (user_id : Option String) (r : CustomizationResult)
    (k : ParticipantCustomization) : CustomizationResult :=
  if some k.participant_id = user_id then
    { r with nickname := some k.nickname }
  else
    { r with own_nickname := some k.nickname }

/-- ThreadABC._parse_customization_info. The argument is none when the
Python data argument is falsy. -/
def _parse_customization_info (data : Option CustomizationData) :
    CustomizationResult :=
  match data with
  | none => ⟨none, DEFAULT_COLOR, none, none, none⟩
  | some d =>
    match d.customization_info with
    | none => ⟨none, DEFAULT_COLOR, none, none, none⟩
    | some info =>
      let rtn : CustomizationResult :=
        ⟨info.emoji, _parse_color info.outgoing_bubble_color, none, none, none⟩
      if isGroupData d then
        { rtn with nicknames := some (nicknameDict info.participant_customizations) }
      else
        match info.participant_customizations with
        | [] => rtn
        | [k0] => applyPC (otherUserId d) rtn k0
        | k0 :: k1 :: _ => applyPC (otherUserId d) (applyPC (otherUserId d) rtn k0) k1

/-- Sample values used by the concrete witnesses below. -/
def sampleSession : Session := ⟨"100012345678901"⟩

def sampleThread : Thread := ⟨sampleSession, "4321"⟩

def samplePages : List MediaPage :=
  [ ⟨[⟨⟨some "MessageImage", none⟩⟩], true, some "cursor1"⟩,
    ⟨[⟨⟨none, some "att2"⟩⟩], false, none⟩ ]

def sampleInfo : CustomizationInfo :=
  ⟨some "X", some "FF44BEC7", [⟨"111", some "nick"⟩, ⟨"222", some "mynick"⟩]⟩

def sampleGroupData : CustomizationData :=
  ⟨some sampleInfo, some "GROUP", false, none, none⟩

/-- The decimal value of a digit string (used to decode the index embedded
in a create_poll option key). -/
def strVal (l : List Char) : Nat :=
  l.foldl (fun a c => a * 10 + (c.toNat - 48)) 0

/-- Recover i from option_text_array[i] (the bracket sits after the
18-character key stem). -/
def decodeOptKey (s : String) : Nat := strVal ((s.data.drop 18).dropLast)

/-- Recover i from option_is_selected_array[i] (the bracket sits after the
25-character key stem). -/
def decodeSelKey (s : String) : Nat := strVal ((s.data.drop 25).dropLast)

/-- The keys that can occur in the create_poll dict before option i is
processed. -/
def pollKeyOK (i : Nat) (k : String) : Prop :=
  k = "question_text" ∨ k = "target_id" ∨
    ∃ j, j < i ∧ (k = optKey j ∨ k = selKey j)

/-! ## Helper lemmas -/

theorem digitChar_sub48 : ∀ m : Nat, m < 10 → (Nat.digitChar m).toNat - 48 = m := by
  decide

theorem foldl_step_toDigitsCore (f : Nat) :
    ∀ (n : Nat) (ds : List Char), n < 10 ^ f →
      (Nat.toDigitsCore 10 f n ds).foldl (fun a c => a * 10 + (c.toNat - 48)) 0
        = ds.foldl (fun a c => a * 10 + (c.toNat - 48)) n := by
  induction f with
  | zero =>
    intro n ds h
    have hn : n = 0 := by simpa using h
    subst hn
    simp [Nat.toDigitsCore]
  | succ f ih =>
    intro n ds h
    rw [Nat.toDigitsCore]
    by_cases h10 : n / 10 = 0
    · have hlt : n < 10 := by omega
      have hmod : n % 10 = n := Nat.mod_eq_of_lt hlt
      rw [if_pos h10]
      simp only [List.foldl_cons]
      rw [digitChar_sub48 (n % 10) (Nat.mod_lt n (by norm_num))]
      rw [hmod]
      simp
    · have hdiv : n / 10 < 10 ^ f := by
        have := Nat.pow_succ 10 f
        omega
      rw [if_neg h10]
      rw [ih (n / 10) _ hdiv]
      simp only [List.foldl_cons]
      rw [digitChar_sub48 (n % 10) (Nat.mod_lt n (by norm_num))]
      congr 1
      omega

theorem strVal_repr (n : Nat) : strVal (Nat.repr n).data = n := by
  have h : n < 10 ^ (n + 1) :=
    Nat.lt_of_lt_of_le (Nat.lt_pow_self (by norm_num) n)
      (Nat.pow_le_pow_right (by norm_num) (Nat.le_succ n))
  have := foldl_step_toDigitsCore (n + 1) n [] h
  simpa [strVal, Nat.repr, Nat.toDigits, List.asString] using this

theorem nat_repr_injective {m n : Nat} (h : Nat.repr m = Nat.repr n) : m = n := by
  have h2 := congrArg (fun s => strVal s.data) h
  simpa [strVal_repr] using h2

theorem setItem_append {α : Type} (d : List (String × α)) (k : String) (v : α)
    (hk : ∀ p ∈ d, p.1 ≠ k) : setItem d k v = d ++ [(k, v)] := by
  have h : d.any (fun p => p.1 == k) = false := by
    rw [List.any_eq_false]
    intro p hp
    simpa using hk p hp
  rw [setItem, h]
  simp

theorem optKey_data (i : Nat) :
    (optKey i).data = "option_text_array[".data ++ ((Nat.repr i).data ++ [']']) := by
  simp [optKey, String.data_append]

theorem selKey_data (i : Nat) :
    (selKey i).data = "option_is_selected_array[".data ++ ((Nat.repr i).data ++ [']']) := by
  simp [selKey, String.data_append]

theorem decodeOptKey_optKey (i : Nat) : decodeOptKey (optKey i) = i := by
  rw [decodeOptKey, optKey_data, List.drop_left' (by rfl)]
  rw [show (Nat.repr i).data ++ [']'] = ((Nat.repr i).data).concat ']' by simp]
  rw [List.concat_eq_append, List.dropLast_concat]
  exact strVal_repr i

theorem decodeSelKey_selKey (i : Nat) : decodeSelKey (selKey i) = i := by
  rw [decodeSelKey, selKey_data, List.drop_left' (by rfl)]
  rw [show (Nat.repr i).data ++ [']'] = ((Nat.repr i).data).concat ']' by simp]
  rw [List.concat_eq_append, List.dropLast_concat]
  exact strVal_repr i

theorem optKey_char7 (i : Nat) : (optKey i).data.get? 7 = some 't' := by
  rw [optKey_data]
  rfl

theorem selKey_char7 (i : Nat) : (selKey i).data.get? 7 = some 'i' := by
  rw [selKey_data]
  rfl

theorem selKey_char8 (i : Nat) : (selKey i).data.get? 8 = some 's' := by
  rw [selKey_data]
  rfl

theorem optKey_inj {i j : Nat} (h : optKey i = optKey j) : i = j := by
  have h2 := congrArg decodeOptKey h
  rwa [decodeOptKey_optKey, decodeOptKey_optKey] at h2

theorem selKey_inj {i j : Nat} (h : selKey i = selKey j) : i = j := by
  have h2 := congrArg decodeSelKey h
  rwa [decodeSelKey_selKey, decodeSelKey_selKey] at h2

theorem optKey_ne_selKey (i j : Nat) : optKey i ≠ selKey j := by
  intro h
  have h2 := congrArg (fun s => s.data.get? 7) h
  simp only at h2
  rw [optKey_char7, selKey_char7] at h2
  simp at h2

theorem optKey_ne_question (i : Nat) : optKey i ≠ "question_text" := by
  intro h
  have h2 := congrArg (fun s => s.data.get? 7) h
  simp only at h2
  rw [optKey_char7] at h2
  simp at h2

theorem optKey_ne_target (i : Nat) : optKey i ≠ "target_id" := by
  intro h
  have h2 := congrArg (fun s => s.data.get? 7) h
  simp only at h2
  rw [optKey_char7] at h2
  simp at h2

theorem selKey_ne_question (i : Nat) : selKey i ≠ "question_text" := by
  intro h
  have h2 := congrArg (fun s => s.data.get? 7) h
  simp only at h2
  rw [selKey_char7] at h2
  simp at h2

theorem selKey_ne_target (i : Nat) : selKey i ≠ "target_id" := by
  intro h
  have h2 := congrArg (fun s => s.data.get? 8) h
  simp only at h2
  rw [selKey_char8] at h2
  simp at h2

theorem pollKeyOK_mono {i : Nat} {k : String} (h : pollKeyOK i k) :
    pollKeyOK (i + 1) k := by
  rcases h with h | h | ⟨j, hj, hk⟩
  · exact Or.inl h
  · exact Or.inr (Or.inl h)
  · exact Or.inr (Or.inr ⟨j, Nat.lt_succ_of_lt hj, hk⟩)

theorem not_pollKeyOK_optKey (i : Nat) : ¬ pollKeyOK i (optKey i) := by
  rintro (h | h | ⟨j, hj, h | h⟩)
  · exact optKey_ne_question i h
  · exact optKey_ne_target i h
  · exact absurd (optKey_inj h) (by omega)
  · exact optKey_ne_selKey i j h

theorem not_pollKeyOK_selKey (i : Nat) : ¬ pollKeyOK i (selKey i) := by
  rintro (h | h | ⟨j, hj, h | h⟩)
  · exact selKey_ne_question i h
  · exact selKey_ne_target i h
  · exact absurd h.symm (optKey_ne_selKey j i)
  · exact absurd (selKey_inj h) (by omega)

theorem poll_fold_from (options : List (String × Bool)) :
    ∀ (i : Nat) (d : List (String × PyVal)),
      (∀ k ∈ d.map Prod.fst, pollKeyOK i k) →
      (List.enumFrom i options).foldl pollStep d =
        d ++ (List.enumFrom i options).flatMap
          (fun iv => [(optKey iv.1, PyVal.str iv.2.1),
                      (selKey iv.1, PyVal.str (if iv.2.2 then "1" else "0"))]) := by
  induction options with
  | nil =>
    intro i d _
    simp [List.enumFrom]
  | cons hd tl ih =>
    intro i d hinv
    rw [List.enumFrom_cons]
    simp only [List.foldl_cons, List.flatMap_cons]
    have h1 : pollStep d (i, hd) = d ++ [(optKey i, PyVal.str hd.1),
        (selKey i, PyVal.str (if hd.2 then "1" else "0"))] := by
      rw [pollStep]
      have hfresh1 : ∀ p ∈ d, p.1 ≠ optKey i := by
        intro p hp he
        exact not_pollKeyOK_optKey i
          (he ▸ hinv p.1 (List.mem_map_of_mem Prod.fst hp))
      rw [setItem_append d (optKey i) _ hfresh1]
      have hfresh2 : ∀ p ∈ d ++ [(optKey i, PyVal.str hd.1)], p.1 ≠ selKey i := by
        intro p hp he
        rcases List.mem_append.mp hp with hp | hp
        · exact not_pollKeyOK_selKey i
            (he ▸ hinv p.1 (List.mem_map_of_mem Prod.fst hp))
        · simp at hp
          subst hp
          simp at he
          exact optKey_ne_selKey i i he
      rw [setItem_append _ (selKey i) _ hfresh2]
      simp
    rw [h1]
    have hinv2 : ∀ k ∈ (d ++ [(optKey i, PyVal.str hd.1),
        (selKey i, PyVal.str (if hd.2 then "1" else "0"))]).map Prod.fst,
        pollKeyOK (i + 1) k := by
      intro k hk
      rw [List.map_append, List.mem_append] at hk
      rcases hk with hk | hk
      · exact pollKeyOK_mono (hinv k hk)
      · simp at hk
        rcases hk with hk | hk
        · exact Or.inr (Or.inr ⟨i, Nat.lt_succ_self i, Or.inl hk⟩)
        · exact Or.inr (Or.inr ⟨i, Nat.lt_succ_self i, Or.inr hk⟩)
    rw [ih (i + 1) _ hinv2]
    simp

theorem setItem_after_initData (t : Thread) (v : PyVal) :
    setItem (imagesInitData t) "after" v = imagesInitData t ++ [("after", v)] := by
  rfl

theorem setItem_after_again (t : Thread) (c v : PyVal) :
    setItem (imagesInitData t ++ [("after", c)]) "after" v =
      imagesInitData t ++ [("after", v)] := by
  rfl

theorem fetchImagesLoop_spec (t : Thread) :
    ∀ (rest : List MediaPage) (p : MediaPage) (data : Payload),
      (∀ v, setItem data "after" v = imagesInitData t ++ [("after", v)]) →
      lastPageChain (p :: rest) = true →
      fetchImagesLoop data p rest =
        some ((p :: rest).flatMap (fun q => q.edges.map parseMediaEdge),
          ((p :: rest).dropLast).map
            (fun q => imagesInitData t ++ [("after", pyOpt q.end_cursor)])) := by
  intro rest
  induction rest with
  | nil =>
    intro p data hdata hchain
    have hp : p.has_next_page = false := by
      simpa [lastPageChain] using hchain
    simp [fetchImagesLoop, hp]
  | cons q rest ih =>
    intro p data hdata hchain
    have hp : p.has_next_page = true ∧ lastPageChain (q :: rest) = true := by
      simpa [lastPageChain] using hchain
    rw [fetchImagesLoop]
    rw [if_pos hp.1]
    rw [hdata (pyOpt p.end_cursor)]
    dsimp only
    rw [ih q (imagesInitData t ++ [("after", pyOpt p.end_cursor)])
      (fun v => setItem_after_again t (pyOpt p.end_cursor) v) hp.2]
    simp

theorem fetchImagesLoop_none :
    ∀ (rest : List MediaPage) (p : MediaPage) (data : Payload),
      (∀ q ∈ p :: rest, q.has_next_page = true) →
      fetchImagesLoop data p rest = none := by
  intro rest
  induction rest with
  | nil =>
    intro p data h
    have hp : p.has_next_page = true := h p (by simp)
    simp [fetchImagesLoop, hp]
  | cons q rest ih =>
    intro p data h
    have hp : p.has_next_page = true := h p (by simp)
    rw [fetchImagesLoop]
    rw [if_pos hp]
    dsimp only
    rw [ih q (setItem data "after" (pyOpt p.end_cursor))
      (fun r hr => h r (List.mem_cons_of_mem p hr))]

/-! ## Claim theorems -/

/-- Claim C1: for every string color, set_color raises ValueError exactly
when color is not one of the 20 colors of SETABLE_COLORS; for a valid
color the posted payload carries color_choice equal to the empty string
when color is the default "#0084ff" and equal to color otherwise. -/
theorem set_color_valueError_iff :
    SETABLE_COLORS.length = 20 ∧
    ∀ (t : Thread) (color : String),
      ((set_color t color).result =
          Except.error (PyErr.valueError setColorErrMsg) ↔
        color ∉ SETABLE_COLORS) ∧
      (color ∈ SETABLE_COLORS →
        (set_color t color).requests =
          [[("color_choice",
              PyVal.str (if color = DEFAULT_COLOR then "" else color)),
            ("thread_or_other_fbid", PyVal.str t.id)]]) := by
  refine ⟨rfl, fun t color => ?_⟩
  by_cases hmem : color ∈ SETABLE_COLORS
  · refine ⟨?_, fun _ => ?_⟩
    · simp [set_color, hmem]
    · simp [set_color, hmem]
  · refine ⟨?_, fun h => absurd h hmem⟩
    simp [set_color, hmem]

/-- Claim C1 witness: a valid non-default color posts itself as
color_choice; the length hypothesis is discharged by computation. -/
theorem set_color_valueError_iff_witness :
    (set_color sampleThread "#44bec7").requests =
      [[("color_choice",
          PyVal.str (if "#44bec7" = DEFAULT_COLOR then "" else "#44bec7")),
        ("thread_or_other_fbid", PyVal.str sampleThread.id)]] :=
  (set_color_valueError_iff.2 sampleThread "#44bec7").2 (by decide)

/-- Claim C2 counterexample: the Thread constructor accepts the empty
string and produces an empty id, so the resulting id is not always a
non-empty string. -/
theorem thread_make_accepts_empty_id :
    (Thread.make sampleSession (PyObj.str "")).id = "" := rfl

/-- Claim C2 (amended): the Thread constructor coerces its id argument
with Python str() and does not enforce non-emptiness (an input whose
string form is empty yields an empty id); every operation leaves the id
field of the thread unchanged, so non-emptiness is preserved by the
operations though not established by the constructor. -/
theorem thread_id_str_and_preserved :
    (∀ (s : Session) (i : PyObj), (Thread.make s i).id = pyStr i) ∧
    (∀ (t : Thread) (color : String), (set_color t color).thread.id = t.id) ∧
    (∀ (t : Thread) (dur : Option Timedelta), (mute t dur).thread.id = t.id) ∧
    (∀ (t : Thread), (unmute t).thread.id = t.id) ∧
    (∀ (t : Thread) (q : String) (os : List (String × Bool)) (r : PollResponse),
      (create_poll t q os r).thread.id = t.id) ∧
    (∀ (t : Thread) (q : String) (o l : Int) (res : String → Option SearchEntry),
      (search_messages t q o l res).thread.id = t.id) ∧
    (∀ (t : Thread) (l : Int) (b : Option Int) (resp : Option MessageThreadResponse),
      (fetch_messages t l b resp).thread.id = t.id) ∧
    (∀ (t : Thread) (f : Bool) (r : String × String), (wave t f r).thread.id = t.id) := by
  refine ⟨fun s i => rfl, fun t color => ?_, fun t dur => rfl, fun t => rfl,
    fun t q os r => ?_, fun t q o l res => rfl, fun t l b resp => ?_,
    fun t f r => rfl⟩
  · rw [set_color]
    split
    · rfl
    · rfl
  · rw [create_poll]
    split
    · rfl
    · rfl
  · cases resp
    · rfl
    · rfl

/-- Claim C7: mute(None) posts mute_settings "-1", mute(d) posts the total
seconds of d as a string, and unmute is exactly mute applied to a zero
timedelta, posting "0"; in every case thread_fbid is the thread id. -/
theorem mute_payloads :
    ∀ (t : Thread),
      (mute t none).requests =
        [[("mute_settings", PyVal.str "-1"), ("thread_fbid", PyVal.str t.id)]] ∧
      (∀ d : Timedelta, (mute t (some d)).requests =
        [[("mute_settings", PyVal.str (toString d.total_seconds)),
          ("thread_fbid", PyVal.str t.id)]]) ∧
      unmute t = mute t (some ⟨0⟩) ∧
      (unmute t).requests =
        [[("mute_settings", PyVal.str "0"), ("thread_fbid", PyVal.str t.id)]] :=
  fun _ => ⟨rfl, fun _ => rfl, rfl, rfl⟩

/-- Claim C8: on a raw Thread every payload-building send operation (wave,
send_text, send_emoji, send_sticker, send_location, send_pinned_location,
send_files) raises the NotImplementedError of _to_send_data, and its
request list is empty, so it raises before any transport request is made. -/
theorem raw_thread_send_ops_raise :
    ∀ (t : Thread) (first : Bool) (respPair : String × String)
      (text : Option String) (mentions : List Mention)
      (files : List (String × String)) (rid : Option String)
      (mtk : String → String) (resp : String) (emoji : String)
      (size : EmojiSize) (sticker : String) (lat lng : PyVal),
      wave t first respPair =
        ⟨t, [], Except.error (PyErr.notImplementedError rawThreadMsg)⟩ ∧
      send_text t text mentions files rid mtk resp =
        ⟨t, [], Except.error (PyErr.notImplementedError rawThreadMsg)⟩ ∧
      send_emoji t emoji size resp =
        ⟨t, [], Except.error (PyErr.notImplementedError rawThreadMsg)⟩ ∧
      send_sticker t sticker resp =
        ⟨t, [], Except.error (PyErr.notImplementedError rawThreadMsg)⟩ ∧
      send_location t lat lng resp =
        ⟨t, [], Except.error (PyErr.notImplementedError rawThreadMsg)⟩ ∧
      send_pinned_location t lat lng resp =
        ⟨t, [], Except.error (PyErr.notImplementedError rawThreadMsg)⟩ ∧
      send_files t files mtk resp =
        ⟨t, [], Except.error (PyErr.notImplementedError rawThreadMsg)⟩ :=
  fun _ _ _ _ _ _ _ _ _ _ _ _ _ _ =>
    ⟨rfl, rfl, rfl, rfl, rfl, rfl, rfl⟩

/-- Claim C9: _parse_color gives "#0084ff" for None and for the empty
string; a non-empty string is returned with its first two characters
stripped and the rest lowercased behind "#"; consequently every color of
SETABLE_COLORS survives the round trip through its upper-case server
encoding "FF" plus the color without its leading "#". -/
theorem parse_color_spec :
    _parse_color none = "#0084ff" ∧
    _parse_color (some "") = "#0084ff" ∧
    (∀ s : String, s ≠ "" → _parse_color (some s) = "#" ++ pyLower (s.drop 2)) ∧
    (∀ c ∈ SETABLE_COLORS,
      _parse_color (some (pyUpper ("FF" ++ c.drop 1))) = c) := by
  refine ⟨rfl, rfl, ?_, ?_⟩
  · intro s hs
    rw [_parse_color]
    rw [if_neg (by simpa [String.isEmpty_iff] using hs)]
  · decide

/-- Claim C9 witness: the round trip at the concrete color "#44bec7", via
the general non-empty-string equation. -/
theorem parse_color_spec_witness :
    _parse_color (some "FF44BEC7") = "#" ++ pyLower ("FF44BEC7".drop 2) :=
  parse_color_spec.2.2.1 "FF44BEC7" (by decide)

/-- Claim C10: search_messages posts query, snippetOffset and snippetLimit
(together with the fixed identifier and the thread id); it yields no
message IDs when the search result has no entry for the thread id, and
otherwise the message_id of each snippet of that entry, in order. -/
theorem search_messages_spec :
    ∀ (t : Thread) (query : String) (offset limit : Int)
      (res : String → Option SearchEntry),
      (search_messages t query offset limit res).requests =
        [[ ("query", PyVal.str query),
           ("snippetOffset", PyVal.int offset),
           ("snippetLimit", PyVal.int limit),
           ("identifier", PyVal.str "thread_fbid"),
           ("thread_fbid", PyVal.str t.id) ]] ∧
      (res t.id = none →
        (search_messages t query offset limit res).result = Except.ok []) ∧
      (∀ e, res t.id = some e →
        (search_messages t query offset limit res).result =
          Except.ok (e.snippets.map (fun s => s.message_id))) := by
  intro t query offset limit res
  refine ⟨rfl, fun h => ?_, fun e h => ?_⟩
  · simp [search_messages, h]
  · simp [search_messages, h]

/-- Claim C10 witness: a concrete response with two snippets below the
thread id yields exactly their message ids. -/
theorem search_messages_spec_witness :
    (search_messages sampleThread "hello" 0 5
        (fun s => if s = "4321" then some ⟨[⟨"mid.one"⟩, ⟨"mid.two"⟩]⟩ else none)).result =
      Except.ok ((([⟨"mid.one"⟩, ⟨"mid.two"⟩] : List SearchSnippet)).map
        (fun s => s.message_id)) :=
  (search_messages_spec sampleThread "hello" 0 5
    (fun s => if s = "4321" then some ⟨[⟨"mid.one"⟩, ⟨"mid.two"⟩]⟩ else none)).2.2
    ⟨[⟨"mid.one"⟩, ⟨"mid.two"⟩]⟩ rfl

theorem create_poll_data (t : Thread) (q : String)
    (options : List (String × Bool)) :
    options.enum.foldl pollStep
        [("question_text", PyVal.str q), ("target_id", PyVal.str t.id)] =
      [("question_text", PyVal.str q), ("target_id", PyVal.str t.id)] ++
        poll_options_payload options := by
  have hinv : ∀ k ∈ ([("question_text", PyVal.str q),
      ("target_id", PyVal.str t.id)] : Payload).map Prod.fst, pollKeyOK 0 k := by
    intro k hk
    simp at hk
    rcases hk with hk | hk
    · exact Or.inl hk
    · exact Or.inr (Or.inl hk)
  exact poll_fold_from options 0 _ hinv

/-- Claim C3: create_poll builds its payload with question_text and
target_id first, followed for the i-th option (in iteration order) by
option_text_array[i] with the option text and option_is_selected_array[i]
with "1" for a selected and "0" for an unselected option; it posts exactly
one request and raises FBchatFacebookError exactly when the status of the
response is not "success". -/
theorem create_poll_spec :
    ∀ (t : Thread) (question : String) (options : List (String × Bool))
      (resp : PollResponse),
      (create_poll t question options resp).requests =
        [[("question_text", PyVal.str question),
          ("target_id", PyVal.str t.id)] ++ poll_options_payload options] ∧
      ((create_poll t question options resp).result =
          Except.error (PyErr.fbchatFacebookError
            ("Failed creating poll: " ++ pyFormatOpt resp.errorTitle)
            resp.errorMessage) ↔
        resp.status ≠ some "success") := by
  intro t q options resp
  by_cases hs : resp.status = some "success"
  · constructor
    · simp [create_poll, hs, create_poll_data]
    · simp [create_poll, hs]
  · constructor
    · simp [create_poll, hs, create_poll_data]
    · simp [create_poll, hs]

/-- Claim C3 witness: a response without a status field makes create_poll
raise FBchatFacebookError, at a concrete two-option poll. -/
theorem create_poll_spec_witness :
    (create_poll sampleThread "Test poll"
        [("Option 1", true), ("Option 2", false)] ⟨none, none, none⟩).result =
      Except.error (PyErr.fbchatFacebookError
        ("Failed creating poll: " ++ pyFormatOpt (none : Option String)) none) :=
  ((create_poll_spec sampleThread "Test poll"
      [("Option 1", true), ("Option 2", false)] ⟨none, none, none⟩).2).mpr
    (by decide)

/-- Claim C4: fetch_images yields one attachment per media edge in server
order (an image attachment for __typename "MessageImage", a video
attachment for "MessageVideo", a plain attachment otherwise); whenever the
edges of a page are exhausted it issues a follow-up request whose after
field is the end_cursor of the page_info as long as has_next_page is
truthy, and it terminates exactly when a page with a falsy has_next_page
is exhausted (with pages all announcing a next page it consumes every
supplied response and asks for more). -/
theorem fetch_images_spec :
    (∀ e : MediaEdge,
      (e.node.typename = some "MessageImage" →
        parseMediaEdge e = MediaAttachment.image e) ∧
      (e.node.typename = some "MessageVideo" →
        parseMediaEdge e = MediaAttachment.video e) ∧
      (e.node.typename ≠ some "MessageImage" →
        e.node.typename ≠ some "MessageVideo" →
        parseMediaEdge e =
          MediaAttachment.attachment e.node.legacy_attachment_id)) ∧
    ∀ (t : Thread) (pages : List MediaPage),
      (lastPageChain pages = true →
        fetch_images t pages =
          some (pages.flatMap (fun q => q.edges.map parseMediaEdge),
            imagesInitData t ::
              pages.dropLast.map
                (fun q => imagesInitData t ++ [("after", pyOpt q.end_cursor)]))) ∧
      ((∀ p ∈ pages, p.has_next_page = true) → fetch_images t pages = none) := by
  constructor
  · intro e
    refine ⟨fun h => ?_, fun h => ?_, fun h1 h2 => ?_⟩
    · simp [parseMediaEdge, h]
    · simp [parseMediaEdge, h]
    · simp [parseMediaEdge, h1, h2]
  · intro t pages
    constructor
    · intro hchain
      cases pages with
      | nil => simp [lastPageChain] at hchain
      | cons p rest =>
        rw [show fetch_images t (p :: rest) =
          (fetchImagesLoop (imagesInitData t) p rest).map
            (fun ar => (ar.1, imagesInitData t :: ar.2)) from rfl]
        rw [fetchImagesLoop_spec t rest p (imagesInitData t)
          (fun v => setItem_after_initData t v) hchain]
        simp
    · intro hall
      cases pages with
      | nil => rfl
      | cons p rest =>
        rw [show fetch_images t (p :: rest) =
          (fetchImagesLoop (imagesInitData t) p rest).map
            (fun ar => (ar.1, imagesInitData t :: ar.2)) from rfl]
        rw [fetchImagesLoop_none rest p (imagesInitData t) hall]
        rfl

/-- Claim C4 witness: a two-page session (one image edge, then one unnamed
edge) yields both attachments and issues exactly one follow-up request
with the cursor of the first page. -/
theorem fetch_images_spec_witness :
    fetch_images sampleThread samplePages =
      some (samplePages.flatMap (fun q => q.edges.map parseMediaEdge),
        imagesInitData sampleThread ::
          samplePages.dropLast.map
            (fun q => imagesInitData sampleThread ++
              [("after", pyOpt q.end_cursor)])) :=
  (fetch_images_spec.2 sampleThread samplePages).1 (by decide)

/-- Claim C5: _parse_customization_info returns exactly the default dict
(emoji None, color "#0084ff", no other keys) for falsy data or missing or
falsy customization_info; otherwise emoji comes from the info and color
from parsing outgoing_bubble_color; a nicknames dict (participant id to
nickname) is present exactly when the data marks a group thread, while
non-group data with participant customizations instead sets nickname or
own_nickname depending on whether the participant id of an entry equals
the id of the other user. -/
theorem parse_customization_info_spec :
    ∀ (data : Option CustomizationData),
      (data = none →
        _parse_customization_info data = ⟨none, DEFAULT_COLOR, none, none, none⟩) ∧
      ∀ d, data = some d →
        (d.customization_info = none →
          _parse_customization_info data =
            ⟨none, DEFAULT_COLOR, none, none, none⟩) ∧
        ∀ info, d.customization_info = some info →
          (_parse_customization_info data).emoji = info.emoji ∧
          (_parse_customization_info data).color =
            _parse_color info.outgoing_bubble_color ∧
          ((_parse_customization_info data).nicknames.isSome ↔
            isGroupData d = true) ∧
          (isGroupData d = true →
            (_parse_customization_info data).nicknames =
              some (nicknameDict info.participant_customizations) ∧
            (_parse_customization_info data).nickname = none ∧
            (_parse_customization_info data).own_nickname = none) ∧
          (isGroupData d = false →
            (_parse_customization_info data).nicknames = none ∧
            (_parse_customization_info data).nickname =
              (info.participant_customizations.take 2).foldl
                (fun a k => if some k.participant_id = otherUserId d
                  then some k.nickname else a) none ∧
            (_parse_customization_info data).own_nickname =
              (info.participant_customizations.take 2).foldl
                (fun a k => if some k.participant_id = otherUserId d
                  then a else some k.nickname) none) := by
  intro data
  constructor
  · intro h
    subst h
    rfl
  · intro d hd
    subst hd
    constructor
    · intro h
      simp [_parse_customization_info, h]
    · intro info hinfo
      have hbody : _parse_customization_info (some d) =
          (if isGroupData d then
            { emoji := info.emoji,
              color := _parse_color info.outgoing_bubble_color,
              nicknames := some (nicknameDict info.participant_customizations),
              nickname := none, own_nickname := none }
          else
            match info.participant_customizations with
            | [] => ⟨info.emoji, _parse_color info.outgoing_bubble_color,
                none, none, none⟩
            | [k0] => applyPC (otherUserId d)
                ⟨info.emoji, _parse_color info.outgoing_bubble_color,
                  none, none, none⟩ k0
            | k0 :: k1 :: _ => applyPC (otherUserId d)
                (applyPC (otherUserId d)
                  ⟨info.emoji, _parse_color info.outgoing_bubble_color,
                    none, none, none⟩ k0) k1) := by
        rw [_parse_customization_info, hinfo]
      cases hg : isGroupData d with
      | true =>
        rw [hbody, if_pos hg]
        refine ⟨rfl, rfl, by simp, fun _ => ⟨rfl, rfl, rfl⟩, fun h => by simp at h⟩
      | false =>
        rw [hbody, if_neg (by simp [hg])]
        rcases hpc : info.participant_customizations with _ | ⟨k0, _ | ⟨k1, tl⟩⟩
        · refine ⟨rfl, rfl, by simp, fun h => by simp at h, fun _ => ?_⟩
          simp
        · by_cases hk0 : some k0.participant_id = otherUserId d
          · refine ⟨by simp [applyPC, hk0], by simp [applyPC, hk0],
              by simp [applyPC, hk0], fun h => by simp at h, fun _ => ?_⟩
            simp [applyPC, hk0]
          · refine ⟨by simp [applyPC, hk0], by simp [applyPC, hk0],
              by simp [applyPC, hk0], fun h => by simp at h, fun _ => ?_⟩
            simp [applyPC, hk0]
        · by_cases hk0 : some k0.participant_id = otherUserId d <;>
            by_cases hk1 : some k1.participant_id = otherUserId d
          all_goals
            refine ⟨by simp [applyPC, hk0, hk1], by simp [applyPC, hk0, hk1],
              by simp [applyPC, hk0, hk1], fun h => by simp at h, fun _ => ?_⟩
          all_goals simp [applyPC, hk0, hk1]

/-- Claim C5 witness: concrete group-marked data yields a present
nicknames dict built from the participant customizations. -/
theorem parse_customization_info_spec_witness :
    (_parse_customization_info (some sampleGroupData)).nicknames =
      some (nicknameDict sampleInfo.participant_customizations) :=
  ((((parse_customization_info_spec (some sampleGroupData)).2 sampleGroupData
      rfl).2 sampleInfo rfl).2.2.2.1 (by decide)).1

/-- Claim C6: no operation mutates the thread object: each operation
leaves the receiver (hence its id and session fields) unchanged, and
fetch_messages builds its messages on a freshly constructed thread of the
same class with the same session and id instead of modifying the
receiver. -/
theorem thread_ops_frame :
    ∀ (t : Thread),
      (∀ color, (set_color t color).thread = t) ∧
      (∀ dur, (mute t dur).thread = t) ∧
      (unmute t).thread = t ∧
      (∀ q os r, (create_poll t q os r).thread = t) ∧
      (∀ q o l res, (search_messages t q o l res).thread = t) ∧
      (∀ f r, (wave t f r).thread = t) ∧
      (∀ text ms fs rid mtk r, (send_text t text ms fs rid mtk r).thread = t) ∧
      (∀ l b resp, (fetch_messages t l b resp).thread = t) ∧
      (∀ l b j, (fetch_messages t l b (some j)).result =
        Except.ok ((j.message_nodes.map
          (fun n => MessageData.mk (Thread.mk t.session t.id) n
            j.read_receipt_nodes)).reverse)) := by
  intro t
  refine ⟨fun color => ?_, fun dur => rfl, rfl, fun q os r => ?_,
    fun q o l res => rfl, fun f r => rfl, fun text ms fs rid mtk r => rfl,
    fun l b resp => ?_, fun l b j => rfl⟩
  · rw [set_color]
    split
    · rfl
    · rfl
  · rw [create_poll]
    split
    · rfl
    · rfl
  · cases resp
    · rfl
    · rfl
